import Mathlib

/-!
# QtAV `LibAVFilter`: the reconfigurable video-filter adapter

A shallow embedding of `src/LibAVFilter.cpp`.

* The private object `LibAVFilterPrivate` becomes a record; its member
  functions become functions that take the record and return the new one.
* The FFmpeg filter engine is outside the file.  It is represented by a
  `World` (which handles are alive, who owns which endpoint, and the list of
  calls made so far) together with an `Engine`: the answers the engine gives
  to the fallible calls.  The answer to a call is looked up by the number of
  calls made before it, so an `Engine` can describe any sequence of successes
  and failures; theorems quantified over all engines hold for every behaviour
  of the real one.
* Pointers are natural numbers, `0` is the null pointer.  Allocation always
  returns a fresh non-null handle.
* `Q_ASSERT(avframe)` in `push` is modelled as a third outcome of `push`
  (`none`): execution stops there when `avframe` is null.  No other undefined
  behaviour of C++ is tracked.
* Left out, because they change neither the adapter nor the engine's state:
  the `qDebug` and `qWarning` messages, the two `avfilter_get_by_name` lookups
  (they succeed once `avfilter_register_all` has run, which is what the two
  assertions after them say), and the allocation and release of the
  `AVFilterInOut` records.
* `avfilter_graph_create_filter` leaves a null pointer in its first argument
  when it fails, as FFmpeg does.
-/

namespace QtAV

/-! ## Constants of the engine -/

/-- FFmpeg's `AV_PIX_FMT_NONE`, the value of `QTAV_PIX_FMT_C(NONE)`. -/
def AV_PIX_FMT_NONE : Int := -1

/-- FFmpeg's `AV_TIME_BASE`. -/
def AV_TIME_BASE : Int := 1000000

/-- FFmpeg's `AV_BUFFERSRC_FLAG_KEEP_REF`. -/
def AV_BUFFERSRC_FLAG_KEEP_REF : Nat := 8

/-- FFmpeg's `AVERROR(EAGAIN)`: the sink has no frame ready yet. -/
def AVERROR_EAGAIN : Int := -11

/-- FFmpeg's `AVERROR_EOF`: end of stream. -/
def AVERROR_EOF : Int := -541478725

/-- FFmpeg's `AVERROR(EINVAL)`: a genuine error code. -/
def AVERROR_EINVAL : Int := -22

/-! ## Frames -/

/-- The caller's frame as `push` and `pull` see it: `width()`, `height()`,
`pixelFormatFFmpeg()`, and for each plane `bits(i)` and `bytesPerLine(i)`. -/
structure VideoFrame where
  width : Int
  height : Int
  pixelFormatFFmpeg : Int
  planes : List (Nat × Int)
deriving DecidableEq, Repr

/-- The contents of a native frame descriptor (`AVFrame`). -/
structure AVFrame where
  width : Int
  height : Int
  format : Int
  data : List Nat
  linesize : List Int
deriving DecidableEq, Repr

/-! ## The engine -/

/-- One call into the filter engine. -/
inductive Call where
  | register_all
  | graph_free (g : Nat)
  | graph_alloc (g : Nat)
  | graph_create_filter (filt name args : String) (g : Nat)
  | graph_parse_ptr (g : Nat) (filters : String) (inputs outputs : String × Nat)
  | graph_config (g : Nat)
  | frame_alloc (h : Nat)
  | buffersrc_add_frame_flags (ctx h : Nat) (desc : AVFrame) (flags : Nat)
  | buffersink_get_frame (ctx h : Nat)
  | frame_unref (h : Nat)
  | frame_free (h : Nat)
deriving DecidableEq, Repr

/-- The engine's side of the state. -/
structure World where
  /-- Last handle handed out. -/
  next : Nat
  /-- Graphs allocated and not yet freed. -/
  live : List Nat
  /-- Endpoint handle and the graph it was created in. -/
  owner : List (Nat × Nat)
  /-- Graphs for which `avfilter_graph_config` succeeded. -/
  configured : List Nat
  /-- Calls made so far, oldest first. -/
  log : List Call
deriving DecidableEq, Repr

/-- Answers of the engine: the return code of the fallible call made after
`n` earlier calls, and the frame the sink delivers there. -/
structure Engine where
  ret : Nat → Int
  out : Nat → AVFrame

/-- Number of engine calls made so far. -/
def World.tick (w : World) : Nat := w.log.length

/-- Append a call to the log. -/
def World.record (w : World) (c : Call) : World :=
  { w with log := w.log ++ [c] }

/-- The engine before any call. -/
def World.empty : World :=
  { next := 0, live := [], owner := [], configured := [], log := [] }

/-- Model of `avfilter_register_all()`. -/
def avfilter_register_all (w : World) : World :=
  w.record Call.register_all

/-- Model of `avfilter_graph_free(&g)`: releases the graph and its endpoints
and nulls the pointer; a null pointer is accepted. -/
def avfilter_graph_free (w : World) (g : Nat) : World × Nat :=
  ({ w with
      live := w.live.filter (fun h => h != g),
      owner := w.owner.filter (fun p => p.2 != g),
      configured := w.configured.filter (fun h => h != g),
      log := w.log ++ [Call.graph_free g] }, 0)

/-- Model of `avfilter_graph_alloc()`. -/
def avfilter_graph_alloc (w : World) : World × Nat :=
  ({ w with
      next := w.next + 1,
      live := (w.next + 1) :: w.live,
      log := w.log ++ [Call.graph_alloc (w.next + 1)] }, w.next + 1)

/-- Model of `avfilter_graph_create_filter(&ctx, filt, name, args, NULL, g)`:
returns the code and the value left in `ctx` (null on failure). -/
def avfilter_graph_create_filter (eng : Engine) (w : World)
    (filt name args : String) (g : Nat) : World × Int × Nat :=
  if eng.ret w.tick < 0 then
    (w.record (Call.graph_create_filter filt name args g), eng.ret w.tick, 0)
  else
    ({ w with
        next := w.next + 1,
        owner := (w.next + 1, g) :: w.owner,
        log := w.log ++ [Call.graph_create_filter filt name args g] },
     eng.ret w.tick, w.next + 1)

/-- Model of `avfilter_graph_parse_ptr(g, filters, &inputs, &outputs, NULL)`. -/
def avfilter_graph_parse_ptr (eng : Engine) (w : World) (g : Nat)
    (filters : String) (inputs outputs : String × Nat) : World × Int :=
  (w.record (Call.graph_parse_ptr g filters inputs outputs), eng.ret w.tick)

/-- Model of `avfilter_graph_config(g, NULL)`. -/
def avfilter_graph_config (eng : Engine) (w : World) (g : Nat) : World × Int :=
  if eng.ret w.tick < 0 then
    (w.record (Call.graph_config g), eng.ret w.tick)
  else
    ({ w with
        configured := g :: w.configured,
        log := w.log ++ [Call.graph_config g] }, eng.ret w.tick)

/-- Model of `av_frame_alloc()`. -/
def av_frame_alloc (w : World) : World × Nat :=
  ({ w with next := w.next + 1, log := w.log ++ [Call.frame_alloc (w.next + 1)] },
   w.next + 1)

/-- Model of `av_buffersrc_add_frame_flags(ctx, frame, flags)`. -/
def av_buffersrc_add_frame_flags (eng : Engine) (w : World)
    (ctx h : Nat) (desc : AVFrame) (flags : Nat) : World × Int :=
  (w.record (Call.buffersrc_add_frame_flags ctx h desc flags), eng.ret w.tick)

/-- Model of `av_buffersink_get_frame(ctx, frame)`: the code and what the sink
wrote into the descriptor. -/
def av_buffersink_get_frame (eng : Engine) (w : World)
    (ctx h : Nat) : World × Int × AVFrame :=
  (w.record (Call.buffersink_get_frame ctx h), eng.ret w.tick, eng.out w.tick)

/-- Model of `av_frame_unref(frame)`. -/
def av_frame_unref (w : World) (h : Nat) : World :=
  w.record (Call.frame_unref h)

/-- Model of `av_frame_free(&frame)`: the descriptor is released and the
pointer nulled. -/
def av_frame_free (w : World) (h : Nat) : World × Nat :=
  (w.record (Call.frame_free h), 0)

/-! ## `LibAVFilterPrivate` -/

/-- The private object.  `enabled` is the member inherited from
`FilterPrivate`. -/
structure LibAVFilterPrivate where
  enabled : Bool
  filter_graph : Nat
  in_filter_ctx : Nat
  out_filter_ctx : Nat
  pixfmt : Int
  width : Int
  height : Int
  avframe : Nat
  filter_frame : Nat
  options : String
  options_changed : Bool
deriving DecidableEq, Repr

/-- The constructor `LibAVFilterPrivate()`.  The base-class constructor is not
part of the file, so the value it gives `enabled` is a parameter. -/
def LibAVFilterPrivate.construct (enabled : Bool) (w : World) :
    LibAVFilterPrivate × World :=
  ({ enabled := enabled,
     filter_graph := 0,
     in_filter_ctx := 0,
     out_filter_ctx := 0,
     pixfmt := AV_PIX_FMT_NONE,
     width := 0,
     height := 0,
     avframe := 0,
     filter_frame := 0,
     options := "",
     options_changed := false },
   avfilter_register_all w)

/-- The destructor `~LibAVFilterPrivate()`. -/
def LibAVFilterPrivate.destroy (d : LibAVFilterPrivate) (w : World) :
    LibAVFilterPrivate × World :=
  let r0 := avfilter_graph_free w d.filter_graph
  let d1 := { d with filter_graph := r0.2 }
  let r1 : LibAVFilterPrivate × World :=
    if d1.avframe ≠ 0 then
      ({ d1 with avframe := 0 }, (av_frame_free r0.1 d1.avframe).1)
    else (d1, r0.1)
  if r1.1.filter_frame ≠ 0 then
    ({ r1.1 with filter_frame := 0 }, (av_frame_free r1.2 r1.1.filter_frame).1)
  else r1

/-- The member `setOptions(opt)`. -/
def LibAVFilterPrivate.setOptions (d : LibAVFilterPrivate) (opt : String) :
    Bool × LibAVFilterPrivate :=
  let d1 := { d with options_changed := decide (d.options ≠ opt) }
  let d2 := if d1.options_changed = true then { d1 with options := opt } else d1
  (true, d2)

/-- The argument string of the buffer source built in `setup`. -/
def buffersrc_args (d : LibAVFilterPrivate) : String :=
  "video_size=" ++ toString d.width ++ "x" ++ toString d.height ++
  ":pix_fmt=" ++ toString d.pixfmt ++
  ":time_base=" ++ toString (1 : Int) ++ "/" ++ toString AV_TIME_BASE ++ ":sar=1"

/-- The member `setup()`.  The two `AVFilterInOut` records handed to the
parser appear as the pairs of a name and an endpoint: `inputs` is the sink
under the name `out`, `outputs` is the source under the name `in`. -/
def LibAVFilterPrivate.setup (eng : Engine) (d : LibAVFilterPrivate) (w : World) :
    Bool × LibAVFilterPrivate × World :=
  let r0 := avfilter_graph_free w d.filter_graph
  let r1 := avfilter_graph_alloc r0.1
  let d1 := { d with filter_graph := r1.2 }
  let r2 := avfilter_graph_create_filter eng r1.1 "buffer" "in" (buffersrc_args d1)
    d1.filter_graph
  let d2 := { d1 with in_filter_ctx := r2.2.2 }
  if r2.2.1 < 0 then (false, d2, r2.1) else
  let r3 := avfilter_graph_create_filter eng r2.1 "buffersink" "out" ""
    d2.filter_graph
  let d3 := { d2 with out_filter_ctx := r3.2.2 }
  if r3.2.1 < 0 then (false, d3, r3.1) else
  let r4 := avfilter_graph_parse_ptr eng r3.1 d3.filter_graph d3.options
    ("out", d3.out_filter_ctx) ("in", d3.in_filter_ctx)
  if r4.2 < 0 then (false, d3, r4.1) else
  let r5 := avfilter_graph_config eng r4.1 d3.filter_graph
  if r5.2 < 0 then (false, d3, r5.1) else
  let r6 := av_frame_alloc r5.1
  let r7 := av_frame_alloc r6.1
  (true, { d3 with avframe := r6.2, filter_frame := r7.2 }, r7.1)

/-- What `push` writes into the input descriptor: the frame's size and format
and, for each plane, its pointer and stride. -/
def describe (vf : VideoFrame) : AVFrame :=
  { width := vf.width,
    height := vf.height,
    format := vf.pixelFormatFFmpeg,
    data := vf.planes.map Prod.fst,
    linesize := vf.planes.map Prod.snd }

/-- Lines 77 to 90 of `push`: the assertion, filling the descriptor and the
submission.  The result is `none` when `Q_ASSERT(avframe)` fails. -/
def LibAVFilterPrivate.submit (eng : Engine) (d : LibAVFilterPrivate) (w : World)
    (vf : VideoFrame) : Option Bool × LibAVFilterPrivate × World :=
  if d.avframe = 0 then (none, d, w) else
  let d1 := { d with pixfmt := vf.pixelFormatFFmpeg }
  let r := av_buffersrc_add_frame_flags eng w d1.in_filter_ctx d1.avframe
    (describe vf) AV_BUFFERSRC_FLAG_KEEP_REF
  if r.2 ≠ 0 then (some false, d1, r.1) else (some true, d1, r.1)

/-- Lines 67 to 70 of `push`: the frame's signature is stored and the dirty
flag cleared. -/
def LibAVFilterPrivate.adopt (d : LibAVFilterPrivate) (vf : VideoFrame) :
    LibAVFilterPrivate :=
  { d with
    width := vf.width,
    height := vf.height,
    pixfmt := vf.pixelFormatFFmpeg,
    options_changed := false }

/-- The member `push(frame)`. -/
def LibAVFilterPrivate.push (eng : Engine) (d : LibAVFilterPrivate) (w : World)
    (vf : VideoFrame) : Option Bool × LibAVFilterPrivate × World :=
  if d.width ≠ vf.width ∨ d.height ≠ vf.height ∨ d.pixfmt ≠ vf.pixelFormatFFmpeg
      ∨ d.options_changed = true then
    if ((d.adopt vf).setup eng w).1 = false then
      (some false, { ((d.adopt vf).setup eng w).2.1 with enabled := false },
        ((d.adopt vf).setup eng w).2.2)
    else
      ((d.adopt vf).setup eng w).2.1.submit eng ((d.adopt vf).setup eng w).2.2 vf
  else
    d.submit eng w vf

/-- The member `pull(f)`: result, object, engine, and the caller's slot. -/
def LibAVFilterPrivate.pull (eng : Engine) (d : LibAVFilterPrivate) (w : World)
    (f : VideoFrame) : Bool × LibAVFilterPrivate × World × VideoFrame :=
  let r := av_buffersink_get_frame eng w d.out_filter_ctx d.filter_frame
  if r.2.1 < 0 then (false, d, r.1, f) else
  let vf : VideoFrame :=
    { width := r.2.2.width,
      height := r.2.2.height,
      pixelFormatFFmpeg := r.2.2.format,
      planes := r.2.2.data.zip r.2.2.linesize }
  (true, d, av_frame_unref r.1 d.filter_frame, vf)

/-! ## `LibAVFilter` -/

/-- Outcome of one `process` call. -/
structure Processed where
  d : LibAVFilterPrivate
  w : World
  frame : VideoFrame
  /-- The assertion in `push` failed. -/
  aborted : Bool
deriving DecidableEq, Repr

/-- The public `LibAVFilter::setOptions`. -/
def LibAVFilter.setOptions (d : LibAVFilterPrivate) (options : String) :
    Bool × LibAVFilterPrivate :=
  d.setOptions options

/-- The public `LibAVFilter::options`. -/
def LibAVFilter.options (d : LibAVFilterPrivate) : String :=
  d.options

/-- The public `LibAVFilter::process`. -/
def LibAVFilter.process (eng : Engine) (d : LibAVFilterPrivate) (w : World)
    (frame : VideoFrame) : Processed :=
  match d.push eng w frame with
  | (none, d1, w1) => { d := d1, w := w1, frame := frame, aborted := true }
  | (some false, d1, w1) => { d := d1, w := w1, frame := frame, aborted := false }
  | (some true, d1, w1) =>
    let r := d1.pull eng w1 frame
    { d := r.2.1, w := r.2.2.1, frame := r.2.2.2, aborted := false }

/-! ## Observations on the call log and runs -/

/-- Is the call `avfilter_graph_alloc`?  `setup` makes exactly one on every
call and nothing else makes any, so these count the calls of `setup`. -/
def Call.isGraphAlloc : Call → Bool
  | Call.graph_alloc _ => true
  | _ => false

/-- Is the call a submission to the source endpoint? -/
def Call.isSubmission : Call → Bool
  | Call.buffersrc_add_frame_flags _ _ _ _ => true
  | _ => false

/-- Is the call a query of the sink endpoint? -/
def Call.isSinkQuery : Call → Bool
  | Call.buffersink_get_frame _ _ => true
  | _ => false

/-- Number of `setup` calls made so far. -/
def World.setupCalls (w : World) : Nat := w.log.countP Call.isGraphAlloc

/-- Number of frames submitted to the source endpoint so far. -/
def World.submissions (w : World) : Nat := w.log.countP Call.isSubmission

/-- Number of sink queries so far. -/
def World.sinkQueries (w : World) : Nat := w.log.countP Call.isSinkQuery

/-- A call a client can make on the adapter. -/
inductive Op where
  | setOptions (text : String)
  | process (frame : VideoFrame)
deriving DecidableEq, Repr

/-- An adapter in its environment; `aborted` records a failed assertion. -/
structure Adapter where
  d : LibAVFilterPrivate
  w : World
  aborted : Bool
deriving DecidableEq, Repr

/-- A freshly constructed adapter. -/
def Adapter.fresh (enabled : Bool) : Adapter :=
  { d := (LibAVFilterPrivate.construct enabled World.empty).1,
    w := (LibAVFilterPrivate.construct enabled World.empty).2,
    aborted := false }

/-- One client call.  Nothing runs after a failed assertion. -/
def Adapter.step (eng : Engine) (a : Adapter) (op : Op) : Adapter :=
  if a.aborted = true then a else
  match op with
  | Op.setOptions t => { a with d := (LibAVFilter.setOptions a.d t).2 }
  | Op.process f =>
    { d := (LibAVFilter.process eng a.d a.w f).d,
      w := (LibAVFilter.process eng a.d a.w f).w,
      aborted := (LibAVFilter.process eng a.d a.w f).aborted }

/-- A sequence of client calls. -/
def Adapter.run (eng : Engine) (a : Adapter) (ops : List Op) : Adapter :=
  ops.foldl (Adapter.step eng) a

/-- An engine in which every call succeeds and the sink delivers `o`. -/
def Engine.allOk (o : AVFrame) : Engine :=
  { ret := fun _ => 0, out := fun _ => o }

/-- An engine whose calls numbered in `ns` fail with `code`, all others
succeed. -/
def Engine.failOn (ns : List Nat) (code : Int) (o : AVFrame) : Engine :=
  { ret := fun k => if k ∈ ns then code else 0, out := fun _ => o }

/-- Does the endpoint `ctx` belong to a live, successfully configured graph? -/
def World.endpointConfigured (w : World) (ctx : Nat) : Bool :=
  w.owner.any (fun p => p.1 == ctx && w.configured.contains p.2 && w.live.contains p.2)

/-- The descriptions the engine was asked to parse, oldest first. -/
def World.parsed (w : World) : List String :=
  w.log.filterMap (fun c =>
    match c with
    | Call.graph_parse_ptr _ filters _ _ => some filters
    | _ => none)

/-- A 640x480 frame, format 0 (yuv420p), three planes. -/
def frame640 : VideoFrame :=
  { width := 640, height := 480, pixelFormatFFmpeg := 0,
    planes := [(4096, 640), (8192, 320), (12288, 320)] }

/-- A 320x240 frame, format 0, three planes. -/
def frame320 : VideoFrame :=
  { width := 320, height := 240, pixelFormatFFmpeg := 0,
    planes := [(4096, 320), (8192, 160), (12288, 160)] }

/-- A default-constructed frame: no size, no format, no planes. -/
def frameNull : VideoFrame :=
  { width := 0, height := 0, pixelFormatFFmpeg := AV_PIX_FMT_NONE, planes := [] }

/-- What the sink delivers in the examples. -/
def outFrame : AVFrame :=
  { width := 320, height := 240, format := 0,
    data := [20480, 24576, 28672], linesize := [320, 160, 160] }

/-- The adapter after the description `vflip` was set and one 640x480 frame
was processed by an engine in which every call succeeds. -/
def Adapter.built : Adapter :=
  Adapter.run (Engine.allOk outFrame) (Adapter.fresh true)
    [Op.setOptions "vflip", Op.process frame640]

/-- An engine that rejects the description at the first two builds (calls 5
and 10 are the two `avfilter_graph_parse_ptr` calls). -/
def Engine.badDescription : Engine :=
  Engine.failOn [5, 10] AVERROR_EINVAL outFrame

/-- The private object of a fresh adapter after the description `nonsense` was
set and `push` stored the signature of a 640x480 frame: the state in which the
first `setup` runs. -/
def pendingBad : LibAVFilterPrivate :=
  ((LibAVFilter.setOptions (Adapter.fresh true).d "nonsense").2).adopt frame640

/-- The built adapter after the description was changed to `nonsense` and
the rebuild at the next 640x480 frame failed (call 16 is that rebuild's
`avfilter_graph_parse_ptr`). -/
def Adapter.rebuildFailed : Adapter :=
  Adapter.run (Engine.failOn [16] AVERROR_EINVAL outFrame) Adapter.built
    [Op.setOptions "nonsense", Op.process frame640]

/-- The built adapter after the description `hflip` was set twice in a row. -/
def Adapter.setTwice : Adapter :=
  Adapter.run (Engine.allOk outFrame) Adapter.built
    [Op.setOptions "hflip", Op.setOptions "hflip"]

/-- The built adapter after the description `hflip` was set once. -/
def Adapter.setOnce : Adapter :=
  Adapter.run (Engine.allOk outFrame) Adapter.built [Op.setOptions "hflip"]

/-- The adapter after the description `nonsense` was set and one 640x480 frame
was processed by `Engine.badDescription`: the build failed. -/
def Adapter.failed : Adapter :=
  Adapter.run Engine.badDescription (Adapter.fresh true)
    [Op.setOptions "nonsense", Op.process frame640]

/-! ## Facts about the engine model -/

theorem countP_snoc (p : Call → Bool) (l : List Call) (c : Call) :
    (l ++ [c]).countP p = l.countP p + (if p c = true then 1 else 0) := by
  rw [List.countP_append]
  by_cases h : p c = true <;> simp [h]

@[simp] theorem graph_free_log (w : World) (g : Nat) :
    (avfilter_graph_free w g).1.log = w.log ++ [Call.graph_free g] := rfl

@[simp] theorem graph_free_next (w : World) (g : Nat) :
    (avfilter_graph_free w g).1.next = w.next := rfl

@[simp] theorem graph_free_live (w : World) (g : Nat) :
    (avfilter_graph_free w g).1.live = w.live.filter (fun h => h != g) := rfl

@[simp] theorem graph_alloc_log (w : World) :
    (avfilter_graph_alloc w).1.log = w.log ++ [Call.graph_alloc (w.next + 1)] := rfl

@[simp] theorem graph_alloc_next (w : World) :
    (avfilter_graph_alloc w).1.next = w.next + 1 := rfl

@[simp] theorem graph_alloc_live (w : World) :
    (avfilter_graph_alloc w).1.live = (w.next + 1) :: w.live := rfl

@[simp] theorem graph_alloc_handle (w : World) :
    (avfilter_graph_alloc w).2 = w.next + 1 := rfl

@[simp] theorem create_filter_log (eng : Engine) (w : World) (f n a : String) (g : Nat) :
    (avfilter_graph_create_filter eng w f n a g).1.log
      = w.log ++ [Call.graph_create_filter f n a g] := by
  unfold avfilter_graph_create_filter; split_ifs <;> rfl

@[simp] theorem create_filter_live (eng : Engine) (w : World) (f n a : String) (g : Nat) :
    (avfilter_graph_create_filter eng w f n a g).1.live = w.live := by
  unfold avfilter_graph_create_filter; split_ifs <;> rfl

@[simp] theorem create_filter_next (eng : Engine) (w : World) (f n a : String) (g : Nat) :
    (avfilter_graph_create_filter eng w f n a g).1.next
      = w.next + (if eng.ret w.tick < 0 then 0 else 1) := by
  unfold avfilter_graph_create_filter; split_ifs <;> rfl

@[simp] theorem create_filter_ret (eng : Engine) (w : World) (f n a : String) (g : Nat) :
    (avfilter_graph_create_filter eng w f n a g).2.1 = eng.ret w.tick := by
  unfold avfilter_graph_create_filter; split_ifs <;> rfl

@[simp] theorem parse_ptr_log (eng : Engine) (w : World) (g : Nat) (s : String)
    (i o : String × Nat) :
    (avfilter_graph_parse_ptr eng w g s i o).1.log
      = w.log ++ [Call.graph_parse_ptr g s i o] := rfl

@[simp] theorem parse_ptr_live (eng : Engine) (w : World) (g : Nat) (s : String)
    (i o : String × Nat) :
    (avfilter_graph_parse_ptr eng w g s i o).1.live = w.live := rfl

@[simp] theorem parse_ptr_next (eng : Engine) (w : World) (g : Nat) (s : String)
    (i o : String × Nat) :
    (avfilter_graph_parse_ptr eng w g s i o).1.next = w.next := rfl

@[simp] theorem graph_config_log (eng : Engine) (w : World) (g : Nat) :
    (avfilter_graph_config eng w g).1.log = w.log ++ [Call.graph_config g] := by
  unfold avfilter_graph_config; split_ifs <;> rfl

@[simp] theorem graph_config_live (eng : Engine) (w : World) (g : Nat) :
    (avfilter_graph_config eng w g).1.live = w.live := by
  unfold avfilter_graph_config; split_ifs <;> rfl

@[simp] theorem graph_config_next (eng : Engine) (w : World) (g : Nat) :
    (avfilter_graph_config eng w g).1.next = w.next := by
  unfold avfilter_graph_config; split_ifs <;> rfl

@[simp] theorem frame_alloc_log (w : World) :
    (av_frame_alloc w).1.log = w.log ++ [Call.frame_alloc (w.next + 1)] := rfl

@[simp] theorem frame_alloc_live (w : World) :
    (av_frame_alloc w).1.live = w.live := rfl

@[simp] theorem frame_alloc_next (w : World) :
    (av_frame_alloc w).1.next = w.next + 1 := rfl

@[simp] theorem frame_alloc_handle (w : World) :
    (av_frame_alloc w).2 = w.next + 1 := rfl

@[simp] theorem add_frame_log (eng : Engine) (w : World) (c h : Nat) (a : AVFrame)
    (fl : Nat) :
    (av_buffersrc_add_frame_flags eng w c h a fl).1.log
      = w.log ++ [Call.buffersrc_add_frame_flags c h a fl] := rfl

@[simp] theorem add_frame_ret (eng : Engine) (w : World) (c h : Nat) (a : AVFrame)
    (fl : Nat) :
    (av_buffersrc_add_frame_flags eng w c h a fl).2 = eng.ret w.tick := rfl

@[simp] theorem get_frame_log (eng : Engine) (w : World) (c h : Nat) :
    (av_buffersink_get_frame eng w c h).1.log
      = w.log ++ [Call.buffersink_get_frame c h] := rfl

@[simp] theorem get_frame_ret (eng : Engine) (w : World) (c h : Nat) :
    (av_buffersink_get_frame eng w c h).2.1 = eng.ret w.tick := rfl

@[simp] theorem get_frame_out (eng : Engine) (w : World) (c h : Nat) :
    (av_buffersink_get_frame eng w c h).2.2 = eng.out w.tick := rfl

@[simp] theorem frame_unref_log (w : World) (h : Nat) :
    (av_frame_unref w h).log = w.log ++ [Call.frame_unref h] := rfl

/-! ## Facts about `setup` -/

/-- Every call of `setup` makes exactly one `avfilter_graph_alloc`. -/
theorem setup_setupCalls (eng : Engine) (d : LibAVFilterPrivate) (w : World) :
    (d.setup eng w).2.2.setupCalls = w.setupCalls + 1 := by
  simp only [LibAVFilterPrivate.setup, World.setupCalls]
  split_ifs <;> simp [countP_snoc, Call.isGraphAlloc]

/-- In `setup` no frame is submitted and the sink is not queried. -/
theorem setup_no_traffic (eng : Engine) (d : LibAVFilterPrivate) (w : World) :
    (d.setup eng w).2.2.submissions = w.submissions ∧
    (d.setup eng w).2.2.sinkQueries = w.sinkQueries := by
  simp only [LibAVFilterPrivate.setup, World.submissions, World.sinkQueries]
  split_ifs <;> simp [countP_snoc, Call.isSubmission, Call.isSinkQuery]

/-- The fields `setup` does not touch. -/
theorem setup_keeps (eng : Engine) (d : LibAVFilterPrivate) (w : World) :
    (d.setup eng w).2.1.enabled = d.enabled ∧
    (d.setup eng w).2.1.width = d.width ∧
    (d.setup eng w).2.1.height = d.height ∧
    (d.setup eng w).2.1.pixfmt = d.pixfmt ∧
    (d.setup eng w).2.1.options = d.options ∧
    (d.setup eng w).2.1.options_changed = d.options_changed := by
  simp only [LibAVFilterPrivate.setup]
  split_ifs <;> simp

/-- The graph handle after `setup` is the one allocated in that call. -/
theorem setup_graph (eng : Engine) (d : LibAVFilterPrivate) (w : World) :
    (d.setup eng w).2.1.filter_graph = w.next + 1 := by
  simp only [LibAVFilterPrivate.setup]
  split_ifs <;> simp

/-- The graphs alive after `setup`: the new one, and the old ones without the
graph the adapter held before. -/
theorem setup_live (eng : Engine) (d : LibAVFilterPrivate) (w : World) :
    (d.setup eng w).2.2.live
      = (w.next + 1) :: w.live.filter (fun h => h != d.filter_graph) := by
  simp only [LibAVFilterPrivate.setup]
  split_ifs <;> simp

/-- Handles are never reused: `setup` only moves the counter forward. -/
theorem setup_next (eng : Engine) (d : LibAVFilterPrivate) (w : World) :
    w.next + 1 ≤ (d.setup eng w).2.2.next := by
  simp only [LibAVFilterPrivate.setup]
  split_ifs <;> simp <;> split_ifs <;> omega

/-- A successful `setup` leaves both descriptors allocated. -/
theorem setup_ok_frames (eng : Engine) (d : LibAVFilterPrivate) (w : World)
    (h : (d.setup eng w).1 = true) :
    (d.setup eng w).2.1.avframe ≠ 0 ∧ (d.setup eng w).2.1.filter_frame ≠ 0 := by
  revert h
  simp only [LibAVFilterPrivate.setup]
  split_ifs <;> simp

/-- The destructor releases the graph the adapter holds. -/
theorem destroy_live (d : LibAVFilterPrivate) (w : World) :
    (d.destroy w).2.live = w.live.filter (fun h => h != d.filter_graph) := by
  unfold LibAVFilterPrivate.destroy
  dsimp only
  split_ifs <;> rfl

/-! ## Facts about `push`, `pull` and `process` -/

/-- What lines 77 to 90 do, in one equation. -/
theorem submit_eq (eng : Engine) (d : LibAVFilterPrivate) (w : World) (vf : VideoFrame) :
    d.submit eng w vf =
      if d.avframe = 0 then (none, d, w)
      else (some (decide (eng.ret w.tick = 0)),
            { d with pixfmt := vf.pixelFormatFFmpeg },
            w.record (Call.buffersrc_add_frame_flags d.in_filter_ctx d.avframe
              (describe vf) AV_BUFFERSRC_FLAG_KEEP_REF)) := by
  unfold LibAVFilterPrivate.submit
  by_cases h : d.avframe = 0
  · simp [h]
  · by_cases hr : eng.ret w.tick = 0 <;>
      simp [h, hr, av_buffersrc_add_frame_flags]

/-- Lines 77 to 90 never call `setup` and never query the sink. -/
theorem submit_counts (eng : Engine) (d : LibAVFilterPrivate) (w : World)
    (vf : VideoFrame) :
    (d.submit eng w vf).2.2.setupCalls = w.setupCalls ∧
    (d.submit eng w vf).2.2.sinkQueries = w.sinkQueries ∧
    (d.submit eng w vf).2.2.submissions
      = w.submissions + (if d.avframe = 0 then 0 else 1) := by
  rw [submit_eq]
  by_cases h : d.avframe = 0 <;>
    simp [h, World.setupCalls, World.sinkQueries, World.submissions, World.record,
      countP_snoc, Call.isGraphAlloc, Call.isSinkQuery, Call.isSubmission]

/-- Lines 77 to 90 change no field but `pixfmt`. -/
theorem submit_state (eng : Engine) (d : LibAVFilterPrivate) (w : World)
    (vf : VideoFrame) :
    (d.submit eng w vf).2.1 = d ∨
    (d.submit eng w vf).2.1 = { d with pixfmt := vf.pixelFormatFFmpeg } := by
  rw [submit_eq]
  by_cases h : d.avframe = 0 <;> simp [h]

/-- The sink is never queried inside `push`. -/
theorem push_sinkQueries (eng : Engine) (d : LibAVFilterPrivate) (w : World)
    (vf : VideoFrame) :
    (d.push eng w vf).2.2.sinkQueries = w.sinkQueries := by
  unfold LibAVFilterPrivate.push
  split_ifs
  · exact (setup_no_traffic eng _ w).2
  · rw [(submit_counts eng _ _ vf).2.1]; exact (setup_no_traffic eng _ w).2
  · exact (submit_counts eng d w vf).2.1

/-- What `pull` does, in one equation. -/
theorem pull_eq (eng : Engine) (d : LibAVFilterPrivate) (w : World) (f : VideoFrame) :
    d.pull eng w f =
      if eng.ret w.tick < 0 then
        (false, d, w.record (Call.buffersink_get_frame d.out_filter_ctx d.filter_frame), f)
      else
        (true, d,
          (w.record (Call.buffersink_get_frame d.out_filter_ctx d.filter_frame)).record
            (Call.frame_unref d.filter_frame),
          { width := (eng.out w.tick).width,
            height := (eng.out w.tick).height,
            pixelFormatFFmpeg := (eng.out w.tick).format,
            planes := (eng.out w.tick).data.zip (eng.out w.tick).linesize }) := by
  unfold LibAVFilterPrivate.pull
  by_cases h : eng.ret w.tick < 0 <;>
    simp [h, av_buffersink_get_frame, av_frame_unref]

/-- The three ways `process` can go, by the result of `push`. -/
theorem process_eq (eng : Engine) (d : LibAVFilterPrivate) (w : World) (f : VideoFrame) :
    LibAVFilter.process eng d w f =
      if (d.push eng w f).1 = some true then
        { d := ((d.push eng w f).2.1.pull eng (d.push eng w f).2.2 f).2.1,
          w := ((d.push eng w f).2.1.pull eng (d.push eng w f).2.2 f).2.2.1,
          frame := ((d.push eng w f).2.1.pull eng (d.push eng w f).2.2 f).2.2.2,
          aborted := false }
      else
        { d := (d.push eng w f).2.1,
          w := (d.push eng w f).2.2,
          frame := f,
          aborted := decide ((d.push eng w f).1 = none) } := by
  unfold LibAVFilter.process
  rcases hp : d.push eng w f with ⟨r, d1, w1⟩
  rcases r with _ | b
  · simp
  · cases b <;> simp

/-- Writing a field's own value back changes nothing. -/
theorem pixfmt_writeback (d : LibAVFilterPrivate) (v : Int) (h : d.pixfmt = v) :
    { d with pixfmt := v } = d := by
  cases d; simp_all

/-- After a `push` that got as far as a submission, the same-signature frame
that follows is submitted to the same endpoint, and that is the only call made
on the engine. -/
theorem submit_then_push (eng2 : Engine) (d : LibAVFilterPrivate) (w : World)
    (vf2 : VideoFrame) (hw : d.width = vf2.width) (hh : d.height = vf2.height)
    (hf : d.pixfmt = vf2.pixelFormatFFmpeg) (hd : d.options_changed = false)
    (ha : d.avframe ≠ 0) :
    (d.push eng2 w vf2).2.2.log
      = w.log ++ [Call.buffersrc_add_frame_flags d.in_filter_ctx d.avframe
          (describe vf2) AV_BUFFERSRC_FLAG_KEEP_REF] := by
  have hc : ¬ (d.width ≠ vf2.width ∨ d.height ≠ vf2.height
      ∨ d.pixfmt ≠ vf2.pixelFormatFFmpeg ∨ d.options_changed = true) := by
    simp [hw, hh, hf, hd]
  unfold LibAVFilterPrivate.push
  rw [if_neg hc, submit_eq, if_neg ha]
  rfl

/-- How many times `push` calls `setup`. -/
theorem push_setupCalls (eng : Engine) (d : LibAVFilterPrivate) (w : World)
    (vf : VideoFrame) :
    (d.push eng w vf).2.2.setupCalls
      = w.setupCalls +
        (if (d.width ≠ vf.width ∨ d.height ≠ vf.height
            ∨ d.pixfmt ≠ vf.pixelFormatFFmpeg ∨ d.options_changed = true)
         then 1 else 0) := by
  unfold LibAVFilterPrivate.push
  split_ifs
  · exact setup_setupCalls eng _ w
  · rw [(submit_counts eng _ _ vf).1]; exact setup_setupCalls eng _ w
  · exact (submit_counts eng d w vf).1

/-- The calls of `setup` during `process` are those during its `push`. -/
theorem process_setupCalls (eng : Engine) (d : LibAVFilterPrivate) (w : World)
    (f : VideoFrame) :
    (LibAVFilter.process eng d w f).w.setupCalls = (d.push eng w f).2.2.setupCalls := by
  rw [process_eq]
  split_ifs
  · rw [pull_eq]
    split_ifs <;>
      simp [World.setupCalls, World.record, countP_snoc, Call.isGraphAlloc]
  · rfl

/-- The only assignment to `enabled` in `push` writes false. -/
theorem push_enabled (eng : Engine) (d : LibAVFilterPrivate) (w : World)
    (vf : VideoFrame) :
    (d.push eng w vf).2.1.enabled = false ∨ (d.push eng w vf).2.1.enabled = d.enabled := by
  unfold LibAVFilterPrivate.push
  split_ifs
  · exact Or.inl rfl
  · right
    rcases submit_state eng ((d.adopt vf).setup eng w).2.1
        ((d.adopt vf).setup eng w).2.2 vf with h | h <;> rw [h]
    · exact (setup_keeps eng (d.adopt vf) w).1
    · exact (setup_keeps eng (d.adopt vf) w).1
  · right
    rcases submit_state eng d w vf with h | h <;> rw [h]

/-- The object after `process` is the object after its `push`. -/
theorem process_state (eng : Engine) (d : LibAVFilterPrivate) (w : World)
    (f : VideoFrame) :
    (LibAVFilter.process eng d w f).d = (d.push eng w f).2.1 := by
  rw [process_eq]
  split_ifs
  · rw [pull_eq]
    split_ifs <;> rfl
  · rfl

/-- Nothing in the file sets `enabled` back to true. -/
theorem step_enabled_false (eng : Engine) (a : Adapter) (op : Op)
    (h : a.d.enabled = false) : (a.step eng op).d.enabled = false := by
  unfold Adapter.step
  split_ifs
  · exact h
  · cases op with
    | setOptions t =>
      show (LibAVFilter.setOptions a.d t).2.enabled = false
      unfold LibAVFilter.setOptions LibAVFilterPrivate.setOptions
      dsimp only
      split_ifs <;> exact h
    | process f =>
      show (LibAVFilter.process eng a.d a.w f).d.enabled = false
      rw [process_state]
      rcases push_enabled eng a.d a.w f with e | e
      · exact e
      · rw [e]; exact h

/-- A disabled adapter stays disabled over any sequence of client calls. -/
theorem run_enabled_false (eng : Engine) (ops : List Op) (a : Adapter)
    (h : a.d.enabled = false) : (a.run eng ops).d.enabled = false := by
  induction ops generalizing a with
  | nil => exact h
  | cons op ops ih =>
    show ((a.step eng op).run eng ops).d.enabled = false
    exact ih _ (step_enabled_false eng a op h)

/-- What `push` returns when the rebuild it attempts fails. -/
theorem push_of_setup_failed (eng : Engine) (d : LibAVFilterPrivate) (w : World)
    (f : VideoFrame)
    (hc : d.width ≠ f.width ∨ d.height ≠ f.height ∨ d.pixfmt ≠ f.pixelFormatFFmpeg
      ∨ d.options_changed = true)
    (hs : ((d.adopt f).setup eng w).1 = false) :
    d.push eng w f
      = (some false, { ((d.adopt f).setup eng w).2.1 with enabled := false },
          ((d.adopt f).setup eng w).2.2) := by
  unfold LibAVFilterPrivate.push
  rw [if_pos hc, if_pos hs]

/-- Nothing runs after a failed assertion. -/
theorem run_aborted (eng : Engine) (ops : List Op) (a : Adapter)
    (h : a.aborted = true) : a.run eng ops = a := by
  induction ops with
  | nil => rfl
  | cons op ops ih =>
    show ((a.step eng op).run eng ops) = a
    have hs : a.step eng op = a := by
      unfold Adapter.step
      rw [if_pos h]
    rw [hs]; exact ih

/-- After any `push` the stored signature is the frame's and the dirty flag is
clear. -/
theorem push_stores_signature (eng : Engine) (d : LibAVFilterPrivate) (w : World)
    (vf : VideoFrame) :
    (d.push eng w vf).2.1.width = vf.width ∧
    (d.push eng w vf).2.1.height = vf.height ∧
    (d.push eng w vf).2.1.pixfmt = vf.pixelFormatFFmpeg ∧
    (d.push eng w vf).2.1.options_changed = false := by
  have hk := setup_keeps eng (d.adopt vf) w
  unfold LibAVFilterPrivate.push
  split_ifs with hc hs
  · exact ⟨hk.2.1, hk.2.2.1, hk.2.2.2.1, hk.2.2.2.2.2⟩
  · rcases submit_state eng ((d.adopt vf).setup eng w).2.1
        ((d.adopt vf).setup eng w).2.2 vf with h | h <;> rw [h]
    · exact ⟨hk.2.1, hk.2.2.1, hk.2.2.2.1, hk.2.2.2.2.2⟩
    · exact ⟨hk.2.1, hk.2.2.1, rfl, hk.2.2.2.2.2⟩
  · simp only [not_or, not_not, Bool.not_eq_true] at hc
    rcases submit_state eng d w vf with h | h <;> rw [h]
    · exact hc
    · exact ⟨hc.1, hc.2.1, rfl, hc.2.2.2⟩

/-- Once the stored signature is the frame's and the dirty flag is clear,
processing that frame again, any number of times, never calls `setup`. -/
theorem run_same_signature (eng : Engine) (f : VideoFrame) (n : Nat) (a : Adapter)
    (hw : a.d.width = f.width) (hh : a.d.height = f.height)
    (hf : a.d.pixfmt = f.pixelFormatFFmpeg) (hd : a.d.options_changed = false) :
    (a.run eng (List.replicate n (Op.process f))).w.setupCalls = a.w.setupCalls := by
  induction n generalizing a with
  | zero => rfl
  | succ n ih =>
    show ((a.step eng (Op.process f)).run eng
      (List.replicate n (Op.process f))).w.setupCalls = _
    by_cases hab : a.aborted = true
    · have hs : a.step eng (Op.process f) = a := by
        unfold Adapter.step
        rw [if_pos hab]
      rw [hs]
      exact ih a hw hh hf hd
    · have hs : a.step eng (Op.process f)
          = { d := (LibAVFilter.process eng a.d a.w f).d,
              w := (LibAVFilter.process eng a.d a.w f).w,
              aborted := (LibAVFilter.process eng a.d a.w f).aborted } := by
        unfold Adapter.step
        rw [if_neg hab]
      have hsig := push_stores_signature eng a.d a.w f
      have hcnt : (LibAVFilter.process eng a.d a.w f).w.setupCalls = a.w.setupCalls := by
        rw [process_setupCalls, push_setupCalls]
        simp [hw, hh, hf, hd]
      rw [hs, ih _ (by rw [process_state]; exact hsig.1)
        (by rw [process_state]; exact hsig.2.1)
        (by rw [process_state]; exact hsig.2.2.1)
        (by rw [process_state]; exact hsig.2.2.2)]
      exact hcnt

/-! ## The claims -/

/-! ### C1: Rebuild after a change of description -/

/-- C1 at its failing input.  The graph of the built adapter was built from
`vflip`.  The description `hflip` is then set twice.  At the second push of a
640x480 frame the stored description is `hflip`, which differs from the one
the graph was built from, yet the dirty flag is not set; the push calls
`setup` not at all and the engine has still parsed `vflip` only.  Had the
description been set once, the same push would rebuild. -/
theorem repeated_setOptions_skips_rebuild :
    Adapter.built.w.parsed = ["vflip"] ∧
    Adapter.built.w.setupCalls = 1 ∧
    Adapter.setTwice.d.options = "hflip" ∧
    Adapter.setTwice.d.options_changed = false ∧
    (Adapter.setTwice.d.push (Engine.allOk outFrame) Adapter.setTwice.w
        frame640).1 = some true ∧
    (Adapter.setTwice.d.push (Engine.allOk outFrame) Adapter.setTwice.w
        frame640).2.2.setupCalls = 1 ∧
    (Adapter.setTwice.d.push (Engine.allOk outFrame) Adapter.setTwice.w
        frame640).2.2.parsed = ["vflip"] ∧
    Adapter.setOnce.d.options_changed = true ∧
    (Adapter.setOnce.d.push (Engine.allOk outFrame) Adapter.setOnce.w
        frame640).2.2.setupCalls = 2 ∧
    (Adapter.setOnce.d.push (Engine.allOk outFrame) Adapter.setOnce.w
        frame640).2.2.parsed = ["vflip", "hflip"] := by
  decide

/-- Next to C1: setting the same description a second time clears the dirty
flag the first call had set. -/
theorem setOptions_twice_clears_flag (d : LibAVFilterPrivate) (t : String) :
    (LibAVFilter.setOptions (LibAVFilter.setOptions d t).2 t).2.options_changed
      = false := by
  unfold LibAVFilter.setOptions LibAVFilterPrivate.setOptions
  by_cases h : d.options = t <;> simp [h]

/-- Next to C1: one `setOptions` with a description that differs from the
stored one makes the next `push` call `setup` exactly once. -/
theorem setOptions_then_push_rebuilds (eng : Engine) (d : LibAVFilterPrivate)
    (w : World) (t : String) (vf : VideoFrame) (h : t ≠ d.options) :
    ((LibAVFilter.setOptions d t).2.push eng w vf).2.2.setupCalls = w.setupCalls + 1 := by
  have hd : (LibAVFilter.setOptions d t).2.options_changed = true := by
    unfold LibAVFilter.setOptions LibAVFilterPrivate.setOptions
    have h2 : ¬ d.options = t := fun e => h e.symm
    simp [h2]
  rw [push_setupCalls, if_pos (Or.inr (Or.inr (Or.inr hd)))]

/-! ### C2: When `push` rebuilds -/

/-- C2: `push` calls `setup` exactly once when the frame's width, height or
pixel format differs from the stored one or the dirty flag is set, and not at
all otherwise; in the latter case the graph handle and both endpoint handles
are left as they were. -/
theorem push_rebuild_iff (eng : Engine) (d : LibAVFilterPrivate) (w : World)
    (vf : VideoFrame) :
    ((d.push eng w vf).2.2.setupCalls = w.setupCalls + 1 ↔
      (d.width ≠ vf.width ∨ d.height ≠ vf.height ∨ d.pixfmt ≠ vf.pixelFormatFFmpeg
        ∨ d.options_changed = true)) ∧
    ((d.push eng w vf).2.2.setupCalls = w.setupCalls ↔
      ¬ (d.width ≠ vf.width ∨ d.height ≠ vf.height ∨ d.pixfmt ≠ vf.pixelFormatFFmpeg
        ∨ d.options_changed = true)) ∧
    (¬ (d.width ≠ vf.width ∨ d.height ≠ vf.height ∨ d.pixfmt ≠ vf.pixelFormatFFmpeg
        ∨ d.options_changed = true) →
      (d.push eng w vf).2.1.filter_graph = d.filter_graph ∧
      (d.push eng w vf).2.1.in_filter_ctx = d.in_filter_ctx ∧
      (d.push eng w vf).2.1.out_filter_ctx = d.out_filter_ctx) := by
  by_cases hc : (d.width ≠ vf.width ∨ d.height ≠ vf.height
      ∨ d.pixfmt ≠ vf.pixelFormatFFmpeg ∨ d.options_changed = true)
  · have hn : (d.push eng w vf).2.2.setupCalls = w.setupCalls + 1 := by
      unfold LibAVFilterPrivate.push
      rw [if_pos hc]
      split_ifs
      · exact setup_setupCalls eng _ w
      · rw [(submit_counts eng _ _ vf).1]; exact setup_setupCalls eng _ w
    refine ⟨⟨fun _ => hc, fun _ => hn⟩, ⟨fun h => ?_, fun h => absurd hc h⟩,
      fun h => absurd hc h⟩
    rw [hn] at h; omega
  · have hp : d.push eng w vf = d.submit eng w vf := by
      unfold LibAVFilterPrivate.push
      rw [if_neg hc]
    have hn : (d.push eng w vf).2.2.setupCalls = w.setupCalls := by
      rw [hp]; exact (submit_counts eng d w vf).1
    refine ⟨⟨fun h => ?_, fun h => absurd h hc⟩, ⟨fun _ => hc, fun _ => hn⟩, fun _ => ?_⟩
    · rw [hn] at h; omega
    · rw [hp]
      rcases submit_state eng d w vf with h | h <;> rw [h] <;> exact ⟨rfl, rfl, rfl⟩

/-- Witness for C2: the built adapter receives a second 640x480 frame. -/
theorem push_rebuild_iff_witness :
    (Adapter.built.d.push (Engine.allOk outFrame) Adapter.built.w frame640).2.1.filter_graph
        = Adapter.built.d.filter_graph ∧
    (Adapter.built.d.push (Engine.allOk outFrame) Adapter.built.w frame640).2.1.in_filter_ctx
        = Adapter.built.d.in_filter_ctx ∧
    (Adapter.built.d.push (Engine.allOk outFrame) Adapter.built.w frame640).2.1.out_filter_ctx
        = Adapter.built.d.out_filter_ctx :=
  (push_rebuild_iff (Engine.allOk outFrame) Adapter.built.d Adapter.built.w frame640).2.2
    (by decide)

/-! ### C3: One build for a steady stream -/

/-- C3 at its failing input.  A fresh adapter is given any non-empty sequence
of frames that all have width 0, height 0 and no pixel format, the signature
the constructor stores: whatever the engine answers, `setup` is never called,
no graph is built at the first frame, and the run stops at the assertion in
`push`. -/
theorem no_build_for_initial_signature (enabled : Bool) (eng : Engine) (n : Nat) :
    ((Adapter.fresh enabled).run eng
        (List.replicate (n + 1) (Op.process frameNull))).w.setupCalls = 0 ∧
    ((Adapter.fresh enabled).step eng (Op.process frameNull)).w.setupCalls = 0 ∧
    ((Adapter.fresh enabled).run eng
        (List.replicate (n + 1) (Op.process frameNull))).aborted = true := by
  have h1 : ((Adapter.fresh enabled).step eng (Op.process frameNull)).aborted = true := by
    cases enabled <;> rfl
  have h2 : ((Adapter.fresh enabled).step eng (Op.process frameNull)).w.setupCalls = 0 := by
    cases enabled <;> rfl
  have hr : (Adapter.fresh enabled).run eng
        (List.replicate (n + 1) (Op.process frameNull))
      = (Adapter.fresh enabled).step eng (Op.process frameNull) := by
    show (((Adapter.fresh enabled).step eng (Op.process frameNull)).run eng
        (List.replicate n (Op.process frameNull))) = _
    exact run_aborted eng _ _ h1
  rw [hr]
  exact ⟨h2, h2, h1⟩

/-- Next to C3: for every signature other than the one the constructor stores,
a fresh adapter given a non-empty sequence of frames of that signature calls
`setup` exactly once, while processing the first frame. -/
theorem single_build_other_signatures (enabled : Bool) (eng : Engine)
    (f : VideoFrame) (n : Nat)
    (h : f.width ≠ 0 ∨ f.height ≠ 0 ∨ f.pixelFormatFFmpeg ≠ AV_PIX_FMT_NONE) :
    ((Adapter.fresh enabled).step eng (Op.process f)).w.setupCalls = 1 ∧
    ((Adapter.fresh enabled).run eng
        (List.replicate (n + 1) (Op.process f))).w.setupCalls = 1 := by
  have hs : (Adapter.fresh enabled).step eng (Op.process f)
      = { d := (LibAVFilter.process eng (Adapter.fresh enabled).d
                (Adapter.fresh enabled).w f).d,
          w := (LibAVFilter.process eng (Adapter.fresh enabled).d
                (Adapter.fresh enabled).w f).w,
          aborted := (LibAVFilter.process eng (Adapter.fresh enabled).d
                (Adapter.fresh enabled).w f).aborted } := rfl
  have hc : ((Adapter.fresh enabled).d.width ≠ f.width
      ∨ (Adapter.fresh enabled).d.height ≠ f.height
      ∨ (Adapter.fresh enabled).d.pixfmt ≠ f.pixelFormatFFmpeg
      ∨ (Adapter.fresh enabled).d.options_changed = true) := by
    rcases h with h | h | h
    · exact Or.inl (fun e => h e.symm)
    · exact Or.inr (Or.inl (fun e => h e.symm))
    · exact Or.inr (Or.inr (Or.inl (fun e => h e.symm)))
  have h1 : ((Adapter.fresh enabled).step eng (Op.process f)).w.setupCalls = 1 := by
    rw [hs]
    show (LibAVFilter.process eng _ _ f).w.setupCalls = 1
    rw [process_setupCalls, push_setupCalls, if_pos hc]
    rfl
  have hsig := push_stores_signature eng (Adapter.fresh enabled).d
    (Adapter.fresh enabled).w f
  refine ⟨h1, ?_⟩
  show (((Adapter.fresh enabled).step eng (Op.process f)).run eng
      (List.replicate n (Op.process f))).w.setupCalls = 1
  rw [run_same_signature eng f n _ (by rw [hs]; show (LibAVFilter.process eng _ _ f).d.width = _; rw [process_state]; exact hsig.1)
    (by rw [hs]; show (LibAVFilter.process eng _ _ f).d.height = _; rw [process_state]; exact hsig.2.1)
    (by rw [hs]; show (LibAVFilter.process eng _ _ f).d.pixfmt = _; rw [process_state]; exact hsig.2.2.1)
    (by rw [hs]; show (LibAVFilter.process eng _ _ f).d.options_changed = _; rw [process_state]; exact hsig.2.2.2)]
  exact h1

/-! ### C4: `setOptions` -/

/-- C4: `setOptions(t)` returns true; afterwards `options()` returns `t`; the
dirty flag is set exactly when `t` differs from the description stored before;
every other field of the adapter is as before; and the call reaches the engine
not at all (the member takes no engine, and a client's `setOptions` step leaves
the engine's state, its call log included, as it was). -/
theorem setOptions_contract (d : LibAVFilterPrivate) (t : String) :
    (LibAVFilter.setOptions d t).1 = true ∧
    LibAVFilter.options (LibAVFilter.setOptions d t).2 = t ∧
    ((LibAVFilter.setOptions d t).2.options_changed = true ↔ t ≠ d.options) ∧
    (LibAVFilter.setOptions d t).2
      = { d with options := t, options_changed := decide (t ≠ d.options) } ∧
    ∀ (eng : Engine) (a : Adapter), (a.step eng (Op.setOptions t)).w = a.w := by
  have key : (LibAVFilter.setOptions d t).2
      = { d with options := t, options_changed := decide (t ≠ d.options) } := by
    unfold LibAVFilter.setOptions LibAVFilterPrivate.setOptions
    by_cases h : d.options = t
    · subst h; simp
    · have h2 : ¬ t = d.options := fun e => h e.symm
      simp [h, h2]
  refine ⟨rfl, ?_, ?_, key, ?_⟩
  · rw [key]; rfl
  · rw [key]; simp
  · intro eng a
    unfold Adapter.step
    split_ifs <;> rfl

/-! ### C5: After a failed rebuild -/

/-- C5, as the code has it: when `setup` fails during a `push`, that `process`
call leaves the caller's frame unmodified, submits nothing, does not query the
sink, and clears the enabled flag; the flag then stays cleared over every
later sequence of `setOptions` and `process` calls.  `process` itself does not
look at the flag: called again with no new description set, it attempts no
rebuild when the frame has the signature of the frame that failed, and calls
`setup` once more when the frame's width, height or pixel format is another. -/
theorem failed_setup_disables (eng : Engine) (d : LibAVFilterPrivate) (w : World)
    (f : VideoFrame)
    (hc : d.width ≠ f.width ∨ d.height ≠ f.height ∨ d.pixfmt ≠ f.pixelFormatFFmpeg
      ∨ d.options_changed = true)
    (hs : ((d.adopt f).setup eng w).1 = false) :
    (LibAVFilter.process eng d w f).frame = f ∧
    (LibAVFilter.process eng d w f).aborted = false ∧
    (LibAVFilter.process eng d w f).w.submissions = w.submissions ∧
    (LibAVFilter.process eng d w f).w.sinkQueries = w.sinkQueries ∧
    (LibAVFilter.process eng d w f).d.enabled = false ∧
    (∀ (eng2 : Engine) (ops : List Op),
      (Adapter.run eng2
        { d := (LibAVFilter.process eng d w f).d,
          w := (LibAVFilter.process eng d w f).w,
          aborted := false } ops).d.enabled = false) ∧
    (∀ (eng2 : Engine) (f2 : VideoFrame),
      (LibAVFilter.process eng2 (LibAVFilter.process eng d w f).d
          (LibAVFilter.process eng d w f).w f2).w.setupCalls
        = (LibAVFilter.process eng d w f).w.setupCalls +
          (if (f.width ≠ f2.width ∨ f.height ≠ f2.height
              ∨ f.pixelFormatFFmpeg ≠ f2.pixelFormatFFmpeg) then 1 else 0)) := by
  have hp := push_of_setup_failed eng d w f hc hs
  have hk := setup_keeps eng (d.adopt f) w
  have ht := setup_no_traffic eng (d.adopt f) w
  have hpr : LibAVFilter.process eng d w f
      = { d := { ((d.adopt f).setup eng w).2.1 with enabled := false },
          w := ((d.adopt f).setup eng w).2.2,
          frame := f,
          aborted := false } := by
    rw [process_eq, hp]; rfl
  rw [hpr]
  refine ⟨rfl, rfl, ht.1, ht.2, rfl, fun eng2 ops => ?_, fun eng2 f2 => ?_⟩
  · exact run_enabled_false eng2 ops _ rfl
  · rw [process_setupCalls, push_setupCalls]
    have e1 : ((d.adopt f).setup eng w).2.1.width = f.width := hk.2.1
    have e2 : ((d.adopt f).setup eng w).2.1.height = f.height := hk.2.2.1
    have e3 : ((d.adopt f).setup eng w).2.1.pixfmt = f.pixelFormatFFmpeg := hk.2.2.2.1
    have e4 : ((d.adopt f).setup eng w).2.1.options_changed = false := hk.2.2.2.2.2
    simp only [e1, e2, e3, e4, Bool.false_eq_true, or_false]

/-- Witness for C5 as amended: a fresh adapter, the description `nonsense`,
a 640x480 frame, and an engine that rejects the description. -/
theorem failed_setup_disables_witness :
    (LibAVFilter.process Engine.badDescription
        (LibAVFilter.setOptions (Adapter.fresh true).d "nonsense").2
        (Adapter.fresh true).w frame640).frame = frame640 ∧
    (LibAVFilter.process Engine.badDescription
        (LibAVFilter.setOptions (Adapter.fresh true).d "nonsense").2
        (Adapter.fresh true).w frame640).d.enabled = false :=
  ⟨(failed_setup_disables Engine.badDescription
      (LibAVFilter.setOptions (Adapter.fresh true).d "nonsense").2
      (Adapter.fresh true).w frame640 (by decide) (by decide)).1,
   (failed_setup_disables Engine.badDescription
      (LibAVFilter.setOptions (Adapter.fresh true).d "nonsense").2
      (Adapter.fresh true).w frame640 (by decide) (by decide)).2.2.2.2.1⟩

/-- C5 fails as stated: the description `nonsense` is set on a fresh adapter
and the build at the first 640x480 frame fails (the adapter is disabled, one
call of `setup` so far, no new description set); `process` is then called with
a 320x240 frame, and it is not true that no further rebuild is attempted:
`setup` is called a second time. -/
theorem process_after_failed_setup_rebuilds :
    Adapter.failed.d.enabled = false ∧
    Adapter.failed.d.options = "nonsense" ∧
    Adapter.failed.w.setupCalls = 1 ∧
    ¬ ((LibAVFilter.process Engine.badDescription Adapter.failed.d Adapter.failed.w
          frame320).w.setupCalls = Adapter.failed.w.setupCalls) ∧
    (LibAVFilter.process Engine.badDescription Adapter.failed.d Adapter.failed.w
        frame320).w.setupCalls = 2 := by
  decide

/-! ### C6: The graph after a failed `setup` -/

/-- C6, as the code has it: when `setup` returns false, the graph that was
stored before the call has been released and no descriptor has been allocated,
while the graph allocated during the call is still stored in the adapter (a
non-null handle) and still alive; it is released by the next call of `setup`
or by the destructor. -/
theorem setup_failure_keeps_new_graph (eng : Engine) (d : LibAVFilterPrivate)
    (w : World) (h : (d.setup eng w).1 = false) :
    (d.setup eng w).2.1.filter_graph = w.next + 1 ∧
    (d.setup eng w).2.1.filter_graph ≠ 0 ∧
    (d.setup eng w).2.1.filter_graph ∈ (d.setup eng w).2.2.live ∧
    (d.filter_graph ≠ w.next + 1 → d.filter_graph ∉ (d.setup eng w).2.2.live) ∧
    ((d.setup eng w).2.1.avframe = d.avframe ∧
      (d.setup eng w).2.1.filter_frame = d.filter_frame) ∧
    (∀ eng2 : Engine,
      (d.setup eng w).2.1.filter_graph
        ∉ ((d.setup eng w).2.1.setup eng2 (d.setup eng w).2.2).2.2.live) ∧
    (d.setup eng w).2.1.filter_graph
      ∉ ((d.setup eng w).2.1.destroy (d.setup eng w).2.2).2.live := by
  have hg := setup_graph eng d w
  have hl := setup_live eng d w
  have hn := setup_next eng d w
  refine ⟨hg, by rw [hg]; omega, by rw [hg, hl]; exact List.mem_cons_self _ _,
    fun hne => ?_, ?_, fun eng2 => ?_, ?_⟩
  · rw [hl]
    intro hm
    rcases List.mem_cons.mp hm with e | hm
    · exact hne e
    · simp at hm
  · revert h
    simp only [LibAVFilterPrivate.setup]
    split_ifs <;> simp
  · rw [setup_live, hg]
    intro hm
    rcases List.mem_cons.mp hm with e | hm
    · omega
    · simp at hm
  · rw [destroy_live]
    simp

/-- Witness for C6 as amended: the first build of a fresh adapter, its
description rejected by the engine. -/
theorem setup_failure_keeps_new_graph_witness :
    (pendingBad.setup Engine.badDescription (Adapter.fresh true).w).2.1.filter_graph
      = (Adapter.fresh true).w.next + 1 ∧
    (pendingBad.setup Engine.badDescription (Adapter.fresh true).w).2.1.filter_graph ≠ 0 ∧
    (pendingBad.setup Engine.badDescription (Adapter.fresh true).w).2.1.filter_graph
      ∈ (pendingBad.setup Engine.badDescription (Adapter.fresh true).w).2.2.live ∧
    pendingBad.filter_graph
      ∉ (pendingBad.setup Engine.badDescription (Adapter.fresh true).w).2.2.live :=
  ⟨(setup_failure_keeps_new_graph Engine.badDescription pendingBad
      (Adapter.fresh true).w (by decide)).1,
   (setup_failure_keeps_new_graph Engine.badDescription pendingBad
      (Adapter.fresh true).w (by decide)).2.1,
   (setup_failure_keeps_new_graph Engine.badDescription pendingBad
      (Adapter.fresh true).w (by decide)).2.2.1,
   (setup_failure_keeps_new_graph Engine.badDescription pendingBad
      (Adapter.fresh true).w (by decide)).2.2.2.1 (by decide)⟩

/-- C6 fails as stated: the first build of a fresh adapter fails because the
engine rejects the description `nonsense`, and when `setup` returns false the
stored graph handle is not null and the graph it names has not been
released. -/
theorem setup_failure_leaves_graph :
    (pendingBad.setup Engine.badDescription (Adapter.fresh true).w).1 = false ∧
    ¬ ((pendingBad.setup Engine.badDescription (Adapter.fresh true).w).2.1.filter_graph = 0) ∧
    ¬ ((pendingBad.setup Engine.badDescription (Adapter.fresh true).w).2.1.filter_graph
        ∉ (pendingBad.setup Engine.badDescription (Adapter.fresh true).w).2.2.live) := by
  decide

/-! ### C7: When `push` disables the adapter -/

/-- C7: `push` clears the enabled flag exactly when it attempted a rebuild and
`setup` failed (it then returns false without submitting anything); in every
other case the flag is as before.  When the source endpoint rejects the frame
(a non-zero code from the submission), `push` returns false and the adapter is
left exactly as the rebuild check left it: when no rebuild was needed every
field, so the enabled flag, the stored signature and the three handles, is as
before the call; when a rebuild was made and succeeded the state is the one
`setup` returned, with the flag as before the call and the frame's signature
stored.  In both cases the next frame of the same signature is submitted to
the same endpoint, and that submission is the only call on the engine. -/
theorem push_disables_iff_setup_failed (eng : Engine) (d : LibAVFilterPrivate)
    (w : World) (vf : VideoFrame) :
    (((d.width ≠ vf.width ∨ d.height ≠ vf.height ∨ d.pixfmt ≠ vf.pixelFormatFFmpeg
          ∨ d.options_changed = true) ∧ ((d.adopt vf).setup eng w).1 = false) →
        (d.push eng w vf).1 = some false ∧
        (d.push eng w vf).2.1.enabled = false ∧
        (d.push eng w vf).2.2.submissions = w.submissions) ∧
    (¬ ((d.width ≠ vf.width ∨ d.height ≠ vf.height ∨ d.pixfmt ≠ vf.pixelFormatFFmpeg
          ∨ d.options_changed = true) ∧ ((d.adopt vf).setup eng w).1 = false) →
        (d.push eng w vf).2.1.enabled = d.enabled) ∧
    (¬ (d.width ≠ vf.width ∨ d.height ≠ vf.height ∨ d.pixfmt ≠ vf.pixelFormatFFmpeg
          ∨ d.options_changed = true) →
      d.avframe ≠ 0 → eng.ret w.tick ≠ 0 →
        (d.push eng w vf).1 = some false ∧
        (d.push eng w vf).2.1 = d ∧
        (d.push eng w vf).2.2.submissions = w.submissions + 1 ∧
        ∀ (eng2 : Engine) (vf2 : VideoFrame),
          vf2.width = vf.width → vf2.height = vf.height →
          vf2.pixelFormatFFmpeg = vf.pixelFormatFFmpeg →
          ((d.push eng w vf).2.1.push eng2 (d.push eng w vf).2.2 vf2).2.2.log
            = (d.push eng w vf).2.2.log ++
              [Call.buffersrc_add_frame_flags d.in_filter_ctx d.avframe (describe vf2)
                AV_BUFFERSRC_FLAG_KEEP_REF]) ∧
    ((d.width ≠ vf.width ∨ d.height ≠ vf.height ∨ d.pixfmt ≠ vf.pixelFormatFFmpeg
          ∨ d.options_changed = true) →
      ((d.adopt vf).setup eng w).1 = true →
      eng.ret ((d.adopt vf).setup eng w).2.2.tick ≠ 0 →
        (d.push eng w vf).1 = some false ∧
        (d.push eng w vf).2.1 = ((d.adopt vf).setup eng w).2.1 ∧
        (d.push eng w vf).2.1.enabled = d.enabled ∧
        (d.push eng w vf).2.1.width = vf.width ∧
        (d.push eng w vf).2.1.height = vf.height ∧
        (d.push eng w vf).2.1.pixfmt = vf.pixelFormatFFmpeg ∧
        (d.push eng w vf).2.2.submissions = w.submissions + 1 ∧
        ∀ (eng2 : Engine) (vf2 : VideoFrame),
          vf2.width = vf.width → vf2.height = vf.height →
          vf2.pixelFormatFFmpeg = vf.pixelFormatFFmpeg →
          ((d.push eng w vf).2.1.push eng2 (d.push eng w vf).2.2 vf2).2.2.log
            = (d.push eng w vf).2.2.log ++
              [Call.buffersrc_add_frame_flags
                ((d.adopt vf).setup eng w).2.1.in_filter_ctx
                ((d.adopt vf).setup eng w).2.1.avframe (describe vf2)
                AV_BUFFERSRC_FLAG_KEEP_REF]) := by
  have hk := setup_keeps eng (d.adopt vf) w
  have ht := setup_no_traffic eng (d.adopt vf) w
  by_cases hc : (d.width ≠ vf.width ∨ d.height ≠ vf.height
      ∨ d.pixfmt ≠ vf.pixelFormatFFmpeg ∨ d.options_changed = true)
  · by_cases hs : ((d.adopt vf).setup eng w).1 = false
    · -- the rebuild failed
      have hp := push_of_setup_failed eng d w vf hc hs
      refine ⟨fun _ => ?_, fun h => absurd ⟨hc, hs⟩ h, fun h => absurd hc h,
        fun _ hok => ?_⟩
      · rw [hp]; exact ⟨rfl, rfl, ht.1⟩
      · rw [hs] at hok; exact absurd hok (by decide)
    · -- the rebuild succeeded
      have hp : d.push eng w vf
          = ((d.adopt vf).setup eng w).2.1.submit eng ((d.adopt vf).setup eng w).2.2 vf := by
        unfold LibAVFilterPrivate.push
        rw [if_pos hc, if_neg hs]
      refine ⟨fun h => absurd h.2 hs, fun _ => ?_, fun h => absurd hc h,
        fun _ hok hr => ?_⟩
      · rw [hp]
        rcases submit_state eng ((d.adopt vf).setup eng w).2.1
            ((d.adopt vf).setup eng w).2.2 vf with h | h <;> rw [h] <;> exact hk.1
      · have ha := (setup_ok_frames eng (d.adopt vf) w hok).1
        have hst : (d.push eng w vf).2.1 = ((d.adopt vf).setup eng w).2.1 := by
          rw [hp, submit_eq, if_neg ha]
          exact pixfmt_writeback _ _ hk.2.2.2.1
        refine ⟨?_, hst, by rw [hst]; exact hk.1, by rw [hst]; exact hk.2.1,
          by rw [hst]; exact hk.2.2.1, by rw [hst]; exact hk.2.2.2.1, ?_,
          fun eng2 vf2 e1 e2 e3 => ?_⟩
        · rw [hp, submit_eq, if_neg ha]
          simp [hr]
        · rw [hp, (submit_counts eng _ _ vf).2.2, if_neg ha, ht.1]
        · rw [hst]
          refine submit_then_push eng2 _ _ vf2 ?_ ?_ ?_ ?_ ha
          · rw [hk.2.1, e1]; rfl
          · rw [hk.2.2.1, e2]; rfl
          · rw [hk.2.2.2.1, e3]; rfl
          · rw [hk.2.2.2.2.2]; rfl
  · -- no rebuild needed
    have hp : d.push eng w vf = d.submit eng w vf := by
      unfold LibAVFilterPrivate.push
      rw [if_neg hc]
    have hc2 := hc
    simp only [not_or, not_not, Bool.not_eq_true] at hc2
    obtain ⟨e1, e2, e3, e4⟩ := hc2
    refine ⟨fun h => absurd h.1 hc, fun _ => ?_, fun _ ha hr => ?_,
      fun h => absurd h hc⟩
    · rw [hp]
      rcases submit_state eng d w vf with h | h <;> rw [h]
    · have hst : (d.push eng w vf).2.1 = d := by
        rw [hp, submit_eq, if_neg ha]
        exact pixfmt_writeback _ _ e3
      refine ⟨?_, hst, ?_, fun eng2 vf2 f1 f2 f3 => ?_⟩
      · rw [hp, submit_eq, if_neg ha]
        simp [hr]
      · rw [hp, (submit_counts eng _ _ vf).2.2, if_neg ha]
      · rw [hst]
        exact submit_then_push eng2 d _ vf2 (by rw [e1, f1]) (by rw [e2, f2])
          (by rw [e3, f3]) e4 ha

/-- Witness for C7: the built adapter gets a second 640x480 frame and the
source endpoint rejects it (call 12); and a fresh adapter builds its graph at
the first 640x480 frame and the source endpoint rejects that frame (call 9). -/
theorem push_disables_iff_setup_failed_witness :
    ((Adapter.built.d.push (Engine.failOn [12] AVERROR_EINVAL outFrame) Adapter.built.w
        frame640).1 = some false ∧
      (Adapter.built.d.push (Engine.failOn [12] AVERROR_EINVAL outFrame) Adapter.built.w
        frame640).2.1 = Adapter.built.d) ∧
    (((Adapter.fresh true).d.push (Engine.failOn [9] AVERROR_EINVAL outFrame)
        (Adapter.fresh true).w frame640).1 = some false ∧
      ((Adapter.fresh true).d.push (Engine.failOn [9] AVERROR_EINVAL outFrame)
        (Adapter.fresh true).w frame640).2.1.enabled = true) :=
  ⟨⟨((push_disables_iff_setup_failed (Engine.failOn [12] AVERROR_EINVAL outFrame)
        Adapter.built.d Adapter.built.w frame640).2.2.1
        (by decide) (by decide) (by decide)).1,
    ((push_disables_iff_setup_failed (Engine.failOn [12] AVERROR_EINVAL outFrame)
        Adapter.built.d Adapter.built.w frame640).2.2.1
        (by decide) (by decide) (by decide)).2.1⟩,
   ⟨((push_disables_iff_setup_failed (Engine.failOn [9] AVERROR_EINVAL outFrame)
        (Adapter.fresh true).d (Adapter.fresh true).w frame640).2.2.2
        (by decide) (by decide) (by decide)).1,
    ((push_disables_iff_setup_failed (Engine.failOn [9] AVERROR_EINVAL outFrame)
        (Adapter.fresh true).d (Adapter.fresh true).w frame640).2.2.2
        (by decide) (by decide) (by decide)).2.2.1⟩⟩

/-! ### C8: The effect of `process` on the frame -/

/-- C8: `process` replaces the caller's frame exactly when `push` succeeded and
the sink answered with a non-negative code, and then with the frame built from
what the sink delivered; in every other case (the rebuild failed, the
submission was rejected, the assertion stopped `push`, or the sink answered
with a negative code) the caller's frame is the one passed in.  The sink is
queried once when `push` succeeded and not at all when it did not. -/
theorem process_frame_effect (eng : Engine) (d : LibAVFilterPrivate) (w : World)
    (f : VideoFrame) :
    (((d.push eng w f).1 = some true ∧ 0 ≤ eng.ret (d.push eng w f).2.2.tick) →
      (LibAVFilter.process eng d w f).frame =
        { width := (eng.out (d.push eng w f).2.2.tick).width,
          height := (eng.out (d.push eng w f).2.2.tick).height,
          pixelFormatFFmpeg := (eng.out (d.push eng w f).2.2.tick).format,
          planes := (eng.out (d.push eng w f).2.2.tick).data.zip
            (eng.out (d.push eng w f).2.2.tick).linesize }) ∧
    (¬ ((d.push eng w f).1 = some true ∧ 0 ≤ eng.ret (d.push eng w f).2.2.tick) →
      (LibAVFilter.process eng d w f).frame = f) ∧
    ((d.push eng w f).1 = some true →
      (LibAVFilter.process eng d w f).w.sinkQueries = w.sinkQueries + 1) ∧
    ((d.push eng w f).1 ≠ some true →
      (LibAVFilter.process eng d w f).w.sinkQueries = w.sinkQueries ∧
      (LibAVFilter.process eng d w f).w = (d.push eng w f).2.2) := by
  have hq := push_sinkQueries eng d w f
  rw [process_eq]
  by_cases hp : (d.push eng w f).1 = some true
  · rw [if_pos hp, pull_eq]
    by_cases hr : eng.ret (d.push eng w f).2.2.tick < 0
    · rw [if_pos hr]
      refine ⟨fun h => absurd hr (not_lt.mpr h.2), fun _ => rfl, fun _ => ?_,
        fun h => absurd hp h⟩
      simp [World.sinkQueries, World.record, countP_snoc, Call.isSinkQuery] at hq ⊢
      exact hq
    · rw [if_neg hr]
      refine ⟨fun _ => rfl, fun h => absurd ⟨hp, not_lt.mp hr⟩ h, fun _ => ?_,
        fun h => absurd hp h⟩
      simp [World.sinkQueries, World.record, countP_snoc, Call.isSinkQuery] at hq ⊢
      exact hq
  · rw [if_neg hp]
    exact ⟨fun h => absurd h.1 hp, fun _ => rfl, fun h => absurd h hp,
      fun _ => ⟨hq, rfl⟩⟩

/-- Witness for C8: the built adapter processes a second 640x480 frame and the
sink delivers a 320x240 frame. -/
theorem process_frame_effect_witness :
    (LibAVFilter.process (Engine.allOk outFrame) Adapter.built.d Adapter.built.w
        frame640).frame
      = { width := 320, height := 240, pixelFormatFFmpeg := 0,
          planes := [(20480, 320), (24576, 160), (28672, 160)] } ∧
    (LibAVFilter.process (Engine.failOn [12] AVERROR_EINVAL outFrame) Adapter.built.d
        Adapter.built.w frame640).frame = frame640 :=
  ⟨(process_frame_effect (Engine.allOk outFrame) Adapter.built.d Adapter.built.w
      frame640).1 (by decide),
   (process_frame_effect (Engine.failOn [12] AVERROR_EINVAL outFrame) Adapter.built.d
      Adapter.built.w frame640).2.1 (by decide)⟩

/-! ### C9: Sink errors in `pull` -/

/-- C9, as the code has it: for every negative answer of the sink, be it
"not ready", "end of stream" or any other error code, `pull` returns false and
leaves the adapter state and the caller's slot as they were; two negative
codes give the same outcome in every component. -/
theorem pull_negative_codes_alike (e1 e2 : Engine) (d : LibAVFilterPrivate)
    (w : World) (f : VideoFrame)
    (h1 : e1.ret w.tick < 0) (h2 : e2.ret w.tick < 0) :
    (d.pull e1 w f).1 = false ∧
    (d.pull e1 w f).2.1 = d ∧
    (d.pull e1 w f).2.2.2 = f ∧
    d.pull e1 w f = d.pull e2 w f := by
  rw [pull_eq, pull_eq, if_pos h1, if_pos h2]
  exact ⟨rfl, rfl, rfl, rfl⟩

/-- Witness for C9 as amended: "not ready" against "invalid argument". -/
theorem pull_negative_codes_alike_witness :
    (Adapter.built.d.pull (Engine.failOn [12] AVERROR_EAGAIN outFrame) Adapter.built.w
        frame640).1 = false ∧
    (Adapter.built.d.pull (Engine.failOn [12] AVERROR_EAGAIN outFrame) Adapter.built.w
        frame640).2.1 = Adapter.built.d ∧
    (Adapter.built.d.pull (Engine.failOn [12] AVERROR_EAGAIN outFrame) Adapter.built.w
        frame640).2.2.2 = frame640 ∧
    Adapter.built.d.pull (Engine.failOn [12] AVERROR_EAGAIN outFrame) Adapter.built.w
        frame640
      = Adapter.built.d.pull (Engine.failOn [12] AVERROR_EINVAL outFrame) Adapter.built.w
        frame640 :=
  pull_negative_codes_alike (Engine.failOn [12] AVERROR_EAGAIN outFrame)
    (Engine.failOn [12] AVERROR_EINVAL outFrame) Adapter.built.d Adapter.built.w frame640
    (by decide) (by decide)

/-- C9 fails as stated: with the sink answering "not ready" in one run,
"end of stream" in another and "invalid argument" in a third, `pull` hands its
caller the same return value, the same adapter state and the same output slot,
so the error is not told apart from the normal conditions. -/
theorem pull_sink_error_not_distinct :
    ¬ (((Adapter.built.d.pull (Engine.failOn [12] AVERROR_EAGAIN outFrame)
            Adapter.built.w frame640).1,
        (Adapter.built.d.pull (Engine.failOn [12] AVERROR_EAGAIN outFrame)
            Adapter.built.w frame640).2.1,
        (Adapter.built.d.pull (Engine.failOn [12] AVERROR_EAGAIN outFrame)
            Adapter.built.w frame640).2.2.2)
      ≠ ((Adapter.built.d.pull (Engine.failOn [12] AVERROR_EINVAL outFrame)
            Adapter.built.w frame640).1,
        (Adapter.built.d.pull (Engine.failOn [12] AVERROR_EINVAL outFrame)
            Adapter.built.w frame640).2.1,
        (Adapter.built.d.pull (Engine.failOn [12] AVERROR_EINVAL outFrame)
            Adapter.built.w frame640).2.2.2)) ∧
    ¬ (((Adapter.built.d.pull (Engine.failOn [12] AVERROR_EOF outFrame)
            Adapter.built.w frame640).1,
        (Adapter.built.d.pull (Engine.failOn [12] AVERROR_EOF outFrame)
            Adapter.built.w frame640).2.1,
        (Adapter.built.d.pull (Engine.failOn [12] AVERROR_EOF outFrame)
            Adapter.built.w frame640).2.2.2)
      ≠ ((Adapter.built.d.pull (Engine.failOn [12] AVERROR_EINVAL outFrame)
            Adapter.built.w frame640).1,
        (Adapter.built.d.pull (Engine.failOn [12] AVERROR_EINVAL outFrame)
            Adapter.built.w frame640).2.1,
        (Adapter.built.d.pull (Engine.failOn [12] AVERROR_EINVAL outFrame)
            Adapter.built.w frame640).2.2.2)) := by
  decide

/-! ### C10: The assertion in `push` -/

/-- C10 at its failing inputs.  (1) The first frame given to a fresh adapter
has the constructor's signature (0, 0, none): `push` reaches the assertion
with `avframe` null.  (2) The first build failed and the next frame has the
same signature: `push` reaches the assertion with `avframe` null.  (3) A graph
was built, a later rebuild failed, and the next frame has the same signature:
the assertion passes on the descriptor left by the old build, and the frame is
submitted to an endpoint that belongs to no successfully configured graph. -/
theorem push_assertion_fails :
    (∀ (enabled : Bool) (eng : Engine),
      (Adapter.fresh enabled).d.avframe = 0 ∧
      ((Adapter.fresh enabled).d.push eng (Adapter.fresh enabled).w frameNull).1 = none) ∧
    (Adapter.failed.d.avframe = 0 ∧
      (Adapter.failed.d.push Engine.badDescription Adapter.failed.w frame640).1 = none) ∧
    (Adapter.rebuildFailed.d.enabled = false ∧
      Adapter.rebuildFailed.d.avframe ≠ 0 ∧
      (Adapter.rebuildFailed.d.push (Engine.failOn [16] AVERROR_EINVAL outFrame)
          Adapter.rebuildFailed.w frame640).1 ≠ none ∧
      (Adapter.rebuildFailed.d.push (Engine.failOn [16] AVERROR_EINVAL outFrame)
          Adapter.rebuildFailed.w frame640).2.2.submissions = Adapter.rebuildFailed.w.submissions + 1 ∧
      Adapter.rebuildFailed.w.endpointConfigured
          Adapter.rebuildFailed.d.in_filter_ctx = false) := by
  refine ⟨fun enabled eng => ?_, by decide, by decide⟩
  cases enabled <;> exact ⟨rfl, rfl⟩

end QtAV
